import Mathlib

/-!
Verification development for the PX4FLOW optical-flow/sonar I2C driver
(`src/drivers/optical_flow/px4flow/px4flow.cpp`).

The driver's state, its `measure`/`collect`/`start`/`RunImpl` member
functions, and its two published report types are shallowly embedded below.
External effects are made explicit parameters:
  * the I2C transport result of the measure-step write is a `Bool`
    (success/failure), and the transport result of the collect-step read is
    an `Option (List Nat)` (`some bytes` on success, `none` on failure);
  * the monotonic clock `hrt_absolute_time` is a function `Nat → Nat`
    together with a call counter `t0`; the k-th call during a cycle reads
    `clock (t0 + k)`;
  * uORB publications are returned as lists of report values;
  * scheduling calls (`ScheduleNow` / `ScheduleDelayed`) are returned as a
    `ScheduleAction` value;
  * the `perf_count(_comms_errors)` performance counter is an explicit
    natural-number field of the driver state.

Floating-point arithmetic of the source is embedded over `ℚ` (the scale
factors 1/10000 and 1/1000 and all concrete values considered are exactly
representable, so no rounding behavior is lost for the stated properties).
-/

namespace PX4Flow

/-- Measure register address (`PX4FLOW_REG`, px4flow.cpp line 60). -/
def PX4FLOW_REG : Nat := 0x16

/-- Default conversion interval in microseconds (10 Hz), px4flow.cpp line 62. -/
def PX4FLOW_CONVERSION_INTERVAL_DEFAULT : Nat := 100000

/-- Minimum conversion interval in microseconds (100 Hz), px4flow.cpp line 63. -/
def PX4FLOW_CONVERSION_INTERVAL_MIN : Nat := 10000

/-- Maximum conversion interval in microseconds (1 Hz), px4flow.cpp line 64. -/
def PX4FLOW_CONVERSION_INTERVAL_MAX : Nat := 1000000

/-- `PX4FLOW_MAX_DISTANCE` = 5.0f meters, px4flow.cpp line 68. -/
def PX4FLOW_MAX_DISTANCE : ℚ := 5

/-- `PX4FLOW_MIN_DISTANCE` = 0.3f meters, px4flow.cpp line 69. -/
def PX4FLOW_MIN_DISTANCE : ℚ := 3/10

/-- Success return code `OK` / `PX4_OK`. -/
def OK : Int := 0

/-- The errno value 5; transport failures are modelled by the single
negated error return, matching the initialisation of `ret` in `collect`. -/
def EIO_code : Int := 5

/-- Modelled from the spec: the integral-frame record `i2c_integral_frame`
is declared in `i2c_frame.h`, which is not part of this tree. Field names
follow the uses in px4flow.cpp (`_frame_integral.pixel_flow_x_integral`,
..., `.qual`); semantic types follow spec section 3: the flow/gyro
integrals and `ground_distance` are signed 16-bit, `integration_timespan`
is unsigned 32-bit, `qual` is unsigned 8-bit. -/
structure I2CIntegralFrame where
  pixel_flow_x_integral : Int
  pixel_flow_y_integral : Int
  gyro_x_rate_integral : Int
  gyro_y_rate_integral : Int
  gyro_z_rate_integral : Int
  integration_timespan : Nat
  ground_distance : Int
  qual : Nat
deriving DecidableEq, Inhabited

/-- Modelled from the spec: byte size of the integral frame (five signed
16-bit fields, one unsigned 32-bit field, one signed 16-bit field, one
byte of quality; `I2C_INTEGRAL_FRAME_SIZE` itself lives in the missing
`i2c_frame.h`). -/
def I2C_INTEGRAL_FRAME_SIZE : Nat := 17

/-- Modelled from the spec: byte size of the full frame (`I2C_FRAME_SIZE`
lives in the missing `i2c_frame.h`; the probe routine transfers 22 bytes
into a buffer of this size, px4flow.cpp line 181). -/
def I2C_FRAME_SIZE : Nat := 22

/-- Read one byte of a raw transfer buffer; bytes out of range of the list
read as 0 (the buffer is zero-initialised, px4flow.cpp line 213). -/
def byteAt (bs : List Nat) (i : Nat) : Nat := bs.getD i 0 % 256

/-- Little-endian unsigned 16-bit field at byte offset `i`. -/
def leU16 (bs : List Nat) (i : Nat) : Nat := byteAt bs i + 256 * byteAt bs (i + 1)

/-- Little-endian unsigned 32-bit field at byte offset `i`. -/
def leU32 (bs : List Nat) (i : Nat) : Nat :=
  byteAt bs i + 256 * byteAt bs (i + 1) + 65536 * byteAt bs (i + 2) +
    16777216 * byteAt bs (i + 3)

/-- Reinterpret an unsigned 16-bit value as signed (two's complement). -/
def toI16 (n : Nat) : Int := if n < 32768 then (n : Int) else (n : Int) - 65536

/-- Little-endian signed 16-bit field at byte offset `i`. -/
def leI16 (bs : List Nat) (i : Nat) : Int := toI16 (leU16 bs i)

/-- Modelled from the spec: decoding raw bytes into an `i2c_integral_frame`.
In the source this is `memcpy(&_frame_integral, val, I2C_INTEGRAL_FRAME_SIZE)`
(px4flow.cpp line 238) against the struct layout of the missing
`i2c_frame.h`; the field order and widths follow spec section 3. The
`memcpy` overwrites the whole struct, so the previous frame value `prev`
does not influence the result. -/
def decodeIntegralFrame (prev : I2CIntegralFrame) (bs : List Nat) : I2CIntegralFrame :=
  { pixel_flow_x_integral := leI16 bs 0
    pixel_flow_y_integral := leI16 bs 2
    gyro_x_rate_integral := leI16 bs 4
    gyro_y_rate_integral := leI16 bs 6
    gyro_z_rate_integral := leI16 bs 8
    integration_timespan := leU32 bs 10
    ground_distance := leI16 bs 14
    qual := byteAt bs 16 }

/-- Modelled from the spec: the `Rotation` enumeration and `rotate_3f` live
in `lib/conversion/rotation.h`, which is not part of this tree. Per spec
section 4.2 the set is a fixed enumeration of discrete yaw reorientations
including the identity. -/
inductive Rot where
  | ROTATION_NONE
  | ROTATION_YAW_90
  | ROTATION_YAW_180
  | ROTATION_YAW_270
deriving DecidableEq, Inhabited

/-- A 3-vector of rational coordinates (embedding the three floats passed
by reference to `rotate_3f`). -/
structure Vec3 where
  x : ℚ
  y : ℚ
  z : ℚ
deriving DecidableEq, Inhabited

/-- Modelled from the spec: `rotate_3f` applies the discrete yaw
reorientation to a 3-vector (spec section 4.2). -/
def rotate_3f : Rot → Vec3 → Vec3
  | .ROTATION_NONE, v => v
  | .ROTATION_YAW_90, v => ⟨-v.y, v.x, v.z⟩
  | .ROTATION_YAW_180, v => ⟨-v.x, -v.y, v.z⟩
  | .ROTATION_YAW_270, v => ⟨v.y, -v.x, v.z⟩

/-- The inverse yaw reorientation (stays inside the enumeration). -/
def rotInverse : Rot → Rot
  | .ROTATION_NONE => .ROTATION_NONE
  | .ROTATION_YAW_90 => .ROTATION_YAW_270
  | .ROTATION_YAW_180 => .ROTATION_YAW_180
  | .ROTATION_YAW_270 => .ROTATION_YAW_90

/-- Modelled from the spec: `distance_sensor_s::MAV_DISTANCE_SENSOR_ULTRASOUND`
comes from the uORB message definition, not part of this tree. -/
def MAV_DISTANCE_SENSOR_ULTRASOUND : Nat := 1

/-- The `sensor_optical_flow_s` report as assembled by `collect`
(px4flow.cpp lines 247-277). Array fields `pixel_flow[2]` and
`delta_angle[3]` are flattened to indexed scalar fields. -/
structure sensor_optical_flow_s where
  timestamp_sample : Nat
  device_id : Nat
  pixel_flow_0 : ℚ
  pixel_flow_1 : ℚ
  integration_timespan_us : Nat
  quality : Nat
  delta_angle_available : Bool
  delta_angle_0 : ℚ
  delta_angle_1 : ℚ
  delta_angle_2 : ℚ
  max_flow_rate : ℚ
  min_ground_distance : ℚ
  max_ground_distance : ℚ
  timestamp : Nat
deriving DecidableEq, Inhabited

/-- The `distance_sensor_s` report as assembled by `collect`
(px4flow.cpp lines 280-292). -/
structure distance_sensor_s where
  device_id : Nat
  min_distance : ℚ
  max_distance : ℚ
  current_distance : ℚ
  variance : ℚ
  signal_quality : Int
  sensor_type : Nat
  orientation : Nat
  timestamp : Nat
deriving DecidableEq, Inhabited

/-- The driver state: the member variables of class `PX4FLOW` that the
claims touch. `distance_instance` embeds
`_distance_sensor_topic.get_instance()` (the uORB multi-publication
instance index; the first-registered instance has index 0). -/
structure PX4FLOWState where
  sonar_rotation : Nat
  sensor_rotation : Rot
  frame_integral : I2CIntegralFrame
  comms_errors : Nat
  collect_phase : Bool
  device_id : Nat
  distance_instance : Nat
deriving DecidableEq, Inhabited

/-- The constructor `PX4FLOW::PX4FLOW` (px4flow.cpp lines 137-145):
`_sonar_rotation` is initialised from the configured rotation code
(`config.rotation`, set from the command-line `-R` option), while
`_sensor_rotation` is initialised to the fixed value `ROTATION_NONE`
independently of the configuration. `_collect_phase` starts false. -/
def mkPX4FLOW (config_rotation : Nat) (dev : Nat) (inst : Nat) : PX4FLOWState :=
  { sonar_rotation := config_rotation
    sensor_rotation := .ROTATION_NONE
    frame_integral := default
    comms_errors := 0
    collect_phase := false
    device_id := dev
    distance_instance := inst }

/-- `PX4FLOW::measure` (px4flow.cpp lines 189-205): write the measure
command byte; on transport failure count a communications error and return
the (negative) transport error, else return `PX4_OK`. -/
def measure (st : PX4FLOWState) (writeOk : Bool) : PX4FLOWState × Int :=
  if writeOk then (st, OK)
  else ({ st with comms_errors := st.comms_errors + 1 }, -EIO_code)

/-- The guard `PX4FLOW_REG == 0x00` of the full-frame addressing mode in
`collect` (px4flow.cpp lines 217, 232): a constant, fixed at build time. -/
def collectModeFull : Bool := PX4FLOW_REG == 0x00

/-- The guard `PX4FLOW_REG == 0x16` of the integral-only addressing mode in
`collect` (px4flow.cpp lines 221, 237): a constant, fixed at build time. -/
def collectModeIntegral : Bool := PX4FLOW_REG == 0x16

/-- Result of one `collect` call: updated driver state, return code, and
the reports published to the two uORB topics during the call. -/
structure CollectResult where
  st : PX4FLOWState
  ret : Int
  flow_pubs : List sensor_optical_flow_s
  dist_pubs : List distance_sensor_s
deriving DecidableEq, Inhabited

/-- `PX4FLOW::collect` (px4flow.cpp lines 207-298). `readRes` is the
transport result of the frame read: `none` for a failed transfer (count a
communications error, publish nothing, return the negative error) and
`some bs` for a successful transfer of bytes `bs`. On success the integral
frame is decoded according to the addressing mode fixed by `PX4FLOW_REG`,
the flow report is assembled (flow and gyro integrals scaled by 1/10000 to
radians, then rotated by `_sensor_rotation`), published, and, when this is
the first-registered instance of the distance topic, a distance report
(ground distance scaled by 1/1000 to meters) is published as well. The
three `hrt_absolute_time()` calls read `clock t0`, `clock (t0+1)`,
`clock (t0+2)` in source order. -/
def collect (st : PX4FLOWState) (readRes : Option (List Nat)) (clock : Nat → Nat)
    (t0 : Nat) : CollectResult :=
  match readRes with
  | none =>
      { st := { st with comms_errors := st.comms_errors + 1 }
        ret := -EIO_code
        flow_pubs := []
        dist_pubs := [] }
  | some bs =>
      let fi1 := if collectModeFull then decodeIntegralFrame st.frame_integral (bs.drop I2C_FRAME_SIZE)
                 else st.frame_integral
      let fi := if collectModeIntegral then decodeIntegralFrame fi1 bs else fi1
      let ts_sample := clock t0
      let pf := rotate_3f st.sensor_rotation
        ⟨(fi.pixel_flow_x_integral : ℚ) / 10000, (fi.pixel_flow_y_integral : ℚ) / 10000, 0⟩
      let da := rotate_3f st.sensor_rotation
        ⟨(fi.gyro_x_rate_integral : ℚ) / 10000, (fi.gyro_y_rate_integral : ℚ) / 10000,
          (fi.gyro_z_rate_integral : ℚ) / 10000⟩
      let report : sensor_optical_flow_s :=
        { timestamp_sample := ts_sample
          device_id := st.device_id
          pixel_flow_0 := pf.x
          pixel_flow_1 := pf.y
          integration_timespan_us := fi.integration_timespan
          quality := fi.qual
          delta_angle_available := true
          delta_angle_0 := da.x
          delta_angle_1 := da.y
          delta_angle_2 := da.z
          max_flow_rate := 5/2
          min_ground_distance := 7/10
          max_ground_distance := 3
          timestamp := clock (t0 + 1) }
      let dists : List distance_sensor_s :=
        if st.distance_instance == 0 then
          [{ device_id := st.device_id
             min_distance := PX4FLOW_MIN_DISTANCE
             max_distance := PX4FLOW_MAX_DISTANCE
             current_distance := (fi.ground_distance : ℚ) / 1000
             variance := 0
             signal_quality := -1
             sensor_type := MAV_DISTANCE_SENSOR_ULTRASOUND
             orientation := st.sonar_rotation
             timestamp := clock (t0 + 2) }]
        else []
      { st := { st with frame_integral := fi }
        ret := OK
        flow_pubs := [report]
        dist_pubs := dists }

/-- Scheduling calls available to the driver: `ScheduleNow` and
`ScheduleDelayed` with a microsecond delay. -/
inductive ScheduleAction where
  | ScheduleNow
  | ScheduleDelayed (delay_us : Nat)
deriving DecidableEq

/-- `PX4FLOW::start` (px4flow.cpp lines 300-308): reset the state machine
flag and schedule a cycle immediately. -/
def start (st : PX4FLOWState) : PX4FLOWState × ScheduleAction :=
  ({ st with collect_phase := false }, .ScheduleNow)

/-- Result of one `RunImpl` tick: updated state, the scheduling call made,
and all reports published during the tick. -/
structure RunResult where
  st : PX4FLOWState
  sched : ScheduleAction
  flow_pubs : List sensor_optical_flow_s
  dist_pubs : List distance_sensor_s
deriving DecidableEq

/-- `PX4FLOW::RunImpl` (px4flow.cpp lines 310-326): run `measure` (a
failure is only logged; execution continues), then `collect`; if `collect`
did not return `OK`, call `start` (which schedules immediately) and
return, otherwise schedule the next cycle after the default interval. -/
def RunImpl (st : PX4FLOWState) (writeOk : Bool) (readRes : Option (List Nat))
    (clock : Nat → Nat) (t0 : Nat) : RunResult :=
  let m := measure st writeOk
  let c := collect m.1 readRes clock t0
  if c.ret ≠ OK then
    let s := start c.st
    { st := s.1, sched := s.2, flow_pubs := c.flow_pubs, dist_pubs := c.dist_pubs }
  else
    { st := c.st, sched := .ScheduleDelayed PX4FLOW_CONVERSION_INTERVAL_DEFAULT,
      flow_pubs := c.flow_pubs, dist_pubs := c.dist_pubs }

/-- The identity clock, used for concrete instantiations. -/
def idClock : Nat → Nat := fun i => i

/-- Concrete 17-byte transfer buffer encoding the spec's concrete scenario:
`pixel_flow_x_integral = 5000`, `pixel_flow_y_integral = -2500`,
gyro integrals 0, `integration_timespan = 100000`,
`ground_distance = 1500`, `qual = 200` (little endian). -/
def sampleBytes : List Nat :=
  [0x88, 0x13, 0x3C, 0xF6, 0, 0, 0, 0, 0, 0, 0xA0, 0x86, 0x01, 0x00, 0xDC, 0x05, 200]

/-- A concrete primary-instance driver state (rotation code 25 =
downward-facing, the documented default of `-R`). -/
def st0 : PX4FLOWState := mkPX4FLOW 25 42 0

/-- A concrete secondary-instance driver state. -/
def stInst1 : PX4FLOWState := mkPX4FLOW 25 43 1

/-- A concrete third-instance driver state. -/
def stInst2 : PX4FLOWState := mkPX4FLOW 25 44 2

end PX4Flow

namespace PX4Flow

/-- Each raw byte of a transfer buffer reads below 256. -/
theorem byteAt_le (bs : List Nat) (i : Nat) : byteAt bs i ≤ 255 := by
  have h : byteAt bs i < 256 := Nat.mod_lt _ (by norm_num)
  omega

/-- A 16-bit little-endian read is below 2^16. -/
theorem leU16_lt (bs : List Nat) (i : Nat) : leU16 bs i < 65536 := by
  have h1 := byteAt_le bs i
  have h2 := byteAt_le bs (i + 1)
  simp only [leU16]
  omega

/-- A 32-bit little-endian read is below 2^32. -/
theorem leU32_lt (bs : List Nat) (i : Nat) : leU32 bs i < 4294967296 := by
  have h1 := byteAt_le bs i
  have h2 := byteAt_le bs (i + 1)
  have h3 := byteAt_le bs (i + 2)
  have h4 := byteAt_le bs (i + 3)
  simp only [leU32]
  omega

/-- A signed 16-bit read stays in the signed 16-bit range. -/
theorem leI16_range (bs : List Nat) (i : Nat) :
    -32768 ≤ leI16 bs i ∧ leI16 bs i < 32768 := by
  have h := leU16_lt bs i
  simp only [leI16, toI16]
  split <;> omega

/-- A successful collect publishes a distance report exactly when the
instance index of the distance topic is 0 (Boolean form). -/
theorem collect_dist_nonempty (st : PX4FLOWState) (bs : List Nat) (clock : Nat → Nat)
    (t0 : Nat) :
    (!(collect st (some bs) clock t0).dist_pubs.isEmpty) = (st.distance_instance == 0) := by
  simp only [collect]
  split <;> simp_all

/-- A successful collect publishes a distance report exactly when the
instance index of the distance topic is 0 (propositional form). -/
theorem collect_dist_ne_nil_iff (st : PX4FLOWState) (bs : List Nat) (clock : Nat → Nat)
    (t0 : Nat) :
    (collect st (some bs) clock t0).dist_pubs ≠ [] ↔ st.distance_instance = 0 := by
  simp only [collect]
  split <;> simp_all

/-- C1 counterexample: on a tick whose measure-step write fails, the code
does not stop the cycle. With a successful collect read it still publishes
a FlowSample (so "no FlowSample is published for that tick" is false), and
when the collect read also fails, the next attempt is scheduled
immediately via `start`, not at the configured interval. -/
theorem C1_counterexample_measure_fail_tick :
    (RunImpl st0 false (some sampleBytes) idClock 0).flow_pubs.length = 1 ∧
    (RunImpl st0 false none idClock 0).sched = ScheduleAction.ScheduleNow := by
  constructor
  · simp [RunImpl, measure, collect, start, OK, EIO_code]
  · simp [RunImpl, measure, collect, start, OK, EIO_code]

/-- C1 (amended): if the Transport write in the measure step fails, the
communications-error counter is incremented but the tick still proceeds to
the collect step; publication and scheduling are decided by the collect
result alone: a successful read still publishes the FlowSample and
schedules at the configured interval, while a failed read publishes
nothing, counts a second communications error, and schedules immediately. -/
theorem C1_measure_fail_cycle_proceeds (st : PX4FLOWState) (bs : List Nat)
    (clock : Nat → Nat) (t0 : Nat) :
    (RunImpl st false (some bs) clock t0).st.comms_errors = st.comms_errors + 1 ∧
    (RunImpl st false (some bs) clock t0).flow_pubs.length = 1 ∧
    (RunImpl st false (some bs) clock t0).sched =
      ScheduleAction.ScheduleDelayed PX4FLOW_CONVERSION_INTERVAL_DEFAULT ∧
    (RunImpl st false none clock t0).st.comms_errors = st.comms_errors + 2 ∧
    (RunImpl st false none clock t0).flow_pubs = [] ∧
    (RunImpl st false none clock t0).dist_pubs = [] ∧
    (RunImpl st false none clock t0).sched = ScheduleAction.ScheduleNow := by
  refine ⟨?_, ?_, ?_, ?_, ?_, ?_, ?_⟩ <;>
    simp [RunImpl, measure, collect, start, OK, EIO_code]

/-- C2: if the Transport read in the collect step fails, the
communications-error counter is incremented, no FlowSample and no
DistanceSample is published for that tick, and the next measure attempt is
scheduled immediately (`ScheduleNow` via `start`) rather than after the
normal interval. -/
theorem C2_collect_fail_restarts_immediately (st : PX4FLOWState) (clock : Nat → Nat)
    (t0 : Nat) :
    (RunImpl st true none clock t0).st.comms_errors = st.comms_errors + 1 ∧
    (RunImpl st true none clock t0).flow_pubs = [] ∧
    (RunImpl st true none clock t0).dist_pubs = [] ∧
    (RunImpl st true none clock t0).sched = ScheduleAction.ScheduleNow := by
  simp [RunImpl, measure, collect, start, OK, EIO_code]

/-- C3: every successful collect publishes exactly one FlowSample with
`delta_angle_available = true`; a DistanceSample is additionally published
iff the instance is the first-registered (index 0) instance of the
distance topic; hence across any nonempty set of concurrently running
instances (with distinct uORB instance indices 0..n-1) exactly one
instance publishes a DistanceSample while every instance publishes a
FlowSample. -/
theorem C3_flow_every_cycle_distance_primary_only (states : List PX4FLOWState)
    (hinst : states.map (fun s => s.distance_instance) = List.range states.length)
    (hne : states ≠ []) (bs : List Nat) (clock : Nat → Nat) (t0 : Nat) :
    (∀ s ∈ states, (collect s (some bs) clock t0).flow_pubs.length = 1 ∧
      ∀ r ∈ (collect s (some bs) clock t0).flow_pubs, r.delta_angle_available = true) ∧
    (∀ s ∈ states, ((collect s (some bs) clock t0).dist_pubs ≠ [] ↔
      s.distance_instance = 0)) ∧
    states.countP (fun s => !(collect s (some bs) clock t0).dist_pubs.isEmpty) = 1 := by
  refine ⟨fun s _ => ⟨by simp [collect], ?_⟩,
    fun s _ => collect_dist_ne_nil_iff s bs clock t0, ?_⟩
  · intro r hr
    simp [collect] at hr
    simp [hr]
  · have hc : states.countP (fun s => !(collect s (some bs) clock t0).dist_pubs.isEmpty) =
        states.countP (fun s => s.distance_instance == 0) :=
      List.countP_congr (fun s _ => by rw [collect_dist_nonempty s bs clock t0])
    rw [hc]
    have hm : states.countP (fun s => s.distance_instance == 0) =
        (states.map (fun s => s.distance_instance)).countP (· == 0) := by
      rw [List.countP_map]
      rfl
    rw [hm, hinst]
    have hmem : 0 ∈ List.range states.length :=
      List.mem_range.mpr (List.length_pos.mpr hne)
    have h1 := List.count_eq_one_of_mem (List.nodup_range states.length) hmem
    simpa [List.count] using h1

/-- C3 witness: three concrete instances with uORB instance indices 0, 1, 2
on the same frame: the dedup-law conclusion holds for them. -/
theorem C3_flow_every_cycle_distance_primary_only_witness :
    ([st0, stInst1, stInst2].map (fun s => s.distance_instance) =
      List.range [st0, stInst1, stInst2].length) ∧
    ([st0, stInst1, stInst2] ≠ ([] : List PX4FLOWState)) ∧
    ((∀ s ∈ [st0, stInst1, stInst2],
        (collect s (some sampleBytes) idClock 0).flow_pubs.length = 1 ∧
        ∀ r ∈ (collect s (some sampleBytes) idClock 0).flow_pubs,
          r.delta_angle_available = true) ∧
      (∀ s ∈ [st0, stInst1, stInst2],
        ((collect s (some sampleBytes) idClock 0).dist_pubs ≠ [] ↔
          s.distance_instance = 0)) ∧
      ([st0, stInst1, stInst2].countP
        (fun s => !(collect s (some sampleBytes) idClock 0).dist_pubs.isEmpty)) = 1) :=
  ⟨by decide, by decide,
    C3_flow_every_cycle_distance_primary_only [st0, stInst1, stInst2] (by decide)
      (by decide) sampleBytes idClock 0⟩

end PX4Flow

namespace PX4Flow

set_option maxHeartbeats 1600000 in
/-- C4: for every decoded frame, each signed 16-bit integral field `n`
(pixel flow x/y, gyro x/y/z) appears in the published FlowSample as
`n / 10000` radians (the driver rotation being the identity),
`integration_timespan` passes through unchanged in microseconds, and
`quality` passes through unchanged and stays in `[0, 255]`; in particular
the spec's concrete frame (pixel flow integrals 5000 and -2500, zero gyro,
timespan 100000, quality 200) yields pixel_flow `[1/2, -(1/4)]`,
delta_angle `[0, 0, 0]`, timespan 100000, quality 200. -/
theorem C4_scale_and_passthrough (st : PX4FLOWState)
    (h : st.sensor_rotation = Rot.ROTATION_NONE) (bs : List Nat)
    (clock : Nat → Nat) (t0 : Nat) :
    (((collect st (some bs) clock t0).flow_pubs.headD default).pixel_flow_0 =
        ((decodeIntegralFrame st.frame_integral bs).pixel_flow_x_integral : ℚ) / 10000 ∧
      ((collect st (some bs) clock t0).flow_pubs.headD default).pixel_flow_1 =
        ((decodeIntegralFrame st.frame_integral bs).pixel_flow_y_integral : ℚ) / 10000 ∧
      ((collect st (some bs) clock t0).flow_pubs.headD default).delta_angle_0 =
        ((decodeIntegralFrame st.frame_integral bs).gyro_x_rate_integral : ℚ) / 10000 ∧
      ((collect st (some bs) clock t0).flow_pubs.headD default).delta_angle_1 =
        ((decodeIntegralFrame st.frame_integral bs).gyro_y_rate_integral : ℚ) / 10000 ∧
      ((collect st (some bs) clock t0).flow_pubs.headD default).delta_angle_2 =
        ((decodeIntegralFrame st.frame_integral bs).gyro_z_rate_integral : ℚ) / 10000 ∧
      ((collect st (some bs) clock t0).flow_pubs.headD default).integration_timespan_us =
        (decodeIntegralFrame st.frame_integral bs).integration_timespan ∧
      ((collect st (some bs) clock t0).flow_pubs.headD default).quality =
        (decodeIntegralFrame st.frame_integral bs).qual ∧
      ((collect st (some bs) clock t0).flow_pubs.headD default).quality ≤ 255) ∧
    (((collect st0 (some sampleBytes) idClock 0).flow_pubs.headD default).pixel_flow_0 =
        1/2 ∧
      ((collect st0 (some sampleBytes) idClock 0).flow_pubs.headD default).pixel_flow_1 =
        -(1/4) ∧
      ((collect st0 (some sampleBytes) idClock 0).flow_pubs.headD default).delta_angle_0 =
        0 ∧
      ((collect st0 (some sampleBytes) idClock 0).flow_pubs.headD default).delta_angle_1 =
        0 ∧
      ((collect st0 (some sampleBytes) idClock 0).flow_pubs.headD default).delta_angle_2 =
        0 ∧
      ((collect st0 (some sampleBytes) idClock 0).flow_pubs.headD
        default).integration_timespan_us = 100000 ∧
      ((collect st0 (some sampleBytes) idClock 0).flow_pubs.headD default).quality = 200) := by
  constructor
  · refine ⟨?_, ?_, ?_, ?_, ?_, ?_, ?_, ?_⟩ <;>
      simp [collect, collectModeFull, collectModeIntegral, PX4FLOW_REG, h, rotate_3f,
        decodeIntegralFrame, byteAt_le]
  · refine ⟨?_, ?_, ?_, ?_, ?_, ?_, ?_⟩ <;>
      norm_num [collect, collectModeFull, collectModeIntegral, PX4FLOW_REG, st0, mkPX4FLOW,
        rotate_3f, decodeIntegralFrame, leI16, leU16, leU32, toI16, byteAt, sampleBytes]

/-- C4 witness: the general scale law instantiated at the concrete primary
instance (whose construction fixes the identity vector rotation) and the
spec's concrete frame bytes. -/
theorem C4_scale_and_passthrough_witness :
    st0.sensor_rotation = Rot.ROTATION_NONE ∧
    ((((collect st0 (some sampleBytes) idClock 0).flow_pubs.headD default).pixel_flow_0 =
        ((decodeIntegralFrame st0.frame_integral sampleBytes).pixel_flow_x_integral : ℚ) /
          10000 ∧
      ((collect st0 (some sampleBytes) idClock 0).flow_pubs.headD default).pixel_flow_1 =
        ((decodeIntegralFrame st0.frame_integral sampleBytes).pixel_flow_y_integral : ℚ) /
          10000 ∧
      ((collect st0 (some sampleBytes) idClock 0).flow_pubs.headD default).delta_angle_0 =
        ((decodeIntegralFrame st0.frame_integral sampleBytes).gyro_x_rate_integral : ℚ) /
          10000 ∧
      ((collect st0 (some sampleBytes) idClock 0).flow_pubs.headD default).delta_angle_1 =
        ((decodeIntegralFrame st0.frame_integral sampleBytes).gyro_y_rate_integral : ℚ) /
          10000 ∧
      ((collect st0 (some sampleBytes) idClock 0).flow_pubs.headD default).delta_angle_2 =
        ((decodeIntegralFrame st0.frame_integral sampleBytes).gyro_z_rate_integral : ℚ) /
          10000 ∧
      ((collect st0 (some sampleBytes) idClock 0).flow_pubs.headD
        default).integration_timespan_us =
        (decodeIntegralFrame st0.frame_integral sampleBytes).integration_timespan ∧
      ((collect st0 (some sampleBytes) idClock 0).flow_pubs.headD default).quality =
        (decodeIntegralFrame st0.frame_integral sampleBytes).qual ∧
      ((collect st0 (some sampleBytes) idClock 0).flow_pubs.headD default).quality ≤ 255) ∧
    (((collect st0 (some sampleBytes) idClock 0).flow_pubs.headD default).pixel_flow_0 =
        1/2 ∧
      ((collect st0 (some sampleBytes) idClock 0).flow_pubs.headD default).pixel_flow_1 =
        -(1/4) ∧
      ((collect st0 (some sampleBytes) idClock 0).flow_pubs.headD default).delta_angle_0 =
        0 ∧
      ((collect st0 (some sampleBytes) idClock 0).flow_pubs.headD default).delta_angle_1 =
        0 ∧
      ((collect st0 (some sampleBytes) idClock 0).flow_pubs.headD default).delta_angle_2 =
        0 ∧
      ((collect st0 (some sampleBytes) idClock 0).flow_pubs.headD
        default).integration_timespan_us = 100000 ∧
      ((collect st0 (some sampleBytes) idClock 0).flow_pubs.headD default).quality = 200)) :=
  ⟨rfl, C4_scale_and_passthrough st0 rfl sampleBytes idClock 0⟩

/-- C5: every published DistanceSample carries
`current_distance = ground_distance / 1000` (millimeters to meters), the
fixed bounds 0.3 m and 5.0 m, the instance's configured sonar-rotation
code as orientation, and a timestamp taken by that instance (its third
clock read of the cycle); in particular `ground_distance = 1500` yields
`current_distance = 3/2` meters. -/
theorem C5_distance_sample_fields (st : PX4FLOWState) (h : st.distance_instance = 0)
    (bs : List Nat) (clock : Nat → Nat) (t0 : Nat) :
    ((collect st (some bs) clock t0).dist_pubs.length = 1 ∧
      ((collect st (some bs) clock t0).dist_pubs.headD default).current_distance =
        ((decodeIntegralFrame st.frame_integral bs).ground_distance : ℚ) / 1000 ∧
      ((collect st (some bs) clock t0).dist_pubs.headD default).min_distance = 3/10 ∧
      ((collect st (some bs) clock t0).dist_pubs.headD default).max_distance = 5 ∧
      ((collect st (some bs) clock t0).dist_pubs.headD default).orientation =
        st.sonar_rotation ∧
      ((collect st (some bs) clock t0).dist_pubs.headD default).timestamp =
        clock (t0 + 2)) ∧
    ((collect st0 (some sampleBytes) idClock 0).dist_pubs.headD default).current_distance =
      3/2 := by
  constructor
  · refine ⟨?_, ?_, ?_, ?_, ?_, ?_⟩ <;>
      simp [collect, collectModeFull, collectModeIntegral, PX4FLOW_REG, h,
        PX4FLOW_MIN_DISTANCE, PX4FLOW_MAX_DISTANCE]
  · norm_num [collect, collectModeFull, collectModeIntegral, PX4FLOW_REG, st0, mkPX4FLOW,
      decodeIntegralFrame, leI16, leU16, leU32, toI16, byteAt, sampleBytes]

/-- C5 witness: the distance-sample field law instantiated at the concrete
primary instance and the spec's concrete frame bytes. -/
theorem C5_distance_sample_fields_witness :
    st0.distance_instance = 0 ∧
    (((collect st0 (some sampleBytes) idClock 0).dist_pubs.length = 1 ∧
      ((collect st0 (some sampleBytes) idClock 0).dist_pubs.headD default).current_distance =
        ((decodeIntegralFrame st0.frame_integral sampleBytes).ground_distance : ℚ) / 1000 ∧
      ((collect st0 (some sampleBytes) idClock 0).dist_pubs.headD default).min_distance =
        3/10 ∧
      ((collect st0 (some sampleBytes) idClock 0).dist_pubs.headD default).max_distance =
        5 ∧
      ((collect st0 (some sampleBytes) idClock 0).dist_pubs.headD default).orientation =
        st0.sonar_rotation ∧
      ((collect st0 (some sampleBytes) idClock 0).dist_pubs.headD default).timestamp =
        idClock (0 + 2)) ∧
    ((collect st0 (some sampleBytes) idClock 0).dist_pubs.headD default).current_distance =
      3/2) :=
  ⟨rfl, C5_distance_sample_fields st0 rfl sampleBytes idClock 0⟩

/-- C6: the command-line `-R` rotation code determines only the orientation
tag of the DistanceSample: two driver instances constructed with different
rotation codes but otherwise identical, fed the same raw frame, publish
identical FlowSamples, while each DistanceSample's orientation equals the
respective code; the vector rotation is fixed to `ROTATION_NONE` at
construction independently of the code. -/
theorem C6_rotation_code_only_affects_orientation (r1 r2 : Nat) (dev inst : Nat)
    (bs : List Nat) (clock : Nat → Nat) (t0 : Nat) :
    (collect (mkPX4FLOW r1 dev 0) (some bs) clock t0).flow_pubs =
      (collect (mkPX4FLOW r2 dev 0) (some bs) clock t0).flow_pubs ∧
    ((collect (mkPX4FLOW r1 dev 0) (some bs) clock t0).dist_pubs.headD default).orientation
      = r1 ∧
    ((collect (mkPX4FLOW r2 dev 0) (some bs) clock t0).dist_pubs.headD default).orientation
      = r2 ∧
    (mkPX4FLOW r1 dev inst).sensor_rotation = Rot.ROTATION_NONE := by
  refine ⟨?_, ?_, ?_, rfl⟩ <;> simp [collect, mkPX4FLOW]

/-- C7: frame decoding is total and deterministic — the decode is a total
function of the raw bytes whose result does not depend on the previously
held frame (the struct is overwritten whole), every field is fully
produced within its declared numeric range, and exactly one of the two
addressing modes of `collect` executes, the choice being the build-time
constant register `PX4FLOW_REG` (integral-only for 0x16), not a per-call
condition. -/
theorem C7_decode_total_deterministic_single_mode (prev1 prev2 : I2CIntegralFrame)
    (bs : List Nat) :
    decodeIntegralFrame prev1 bs = decodeIntegralFrame prev2 bs ∧
    (-32768 ≤ (decodeIntegralFrame prev1 bs).pixel_flow_x_integral ∧
      (decodeIntegralFrame prev1 bs).pixel_flow_x_integral < 32768) ∧
    (-32768 ≤ (decodeIntegralFrame prev1 bs).pixel_flow_y_integral ∧
      (decodeIntegralFrame prev1 bs).pixel_flow_y_integral < 32768) ∧
    (-32768 ≤ (decodeIntegralFrame prev1 bs).gyro_x_rate_integral ∧
      (decodeIntegralFrame prev1 bs).gyro_x_rate_integral < 32768) ∧
    (-32768 ≤ (decodeIntegralFrame prev1 bs).gyro_y_rate_integral ∧
      (decodeIntegralFrame prev1 bs).gyro_y_rate_integral < 32768) ∧
    (-32768 ≤ (decodeIntegralFrame prev1 bs).gyro_z_rate_integral ∧
      (decodeIntegralFrame prev1 bs).gyro_z_rate_integral < 32768) ∧
    (decodeIntegralFrame prev1 bs).integration_timespan < 4294967296 ∧
    (-32768 ≤ (decodeIntegralFrame prev1 bs).ground_distance ∧
      (decodeIntegralFrame prev1 bs).ground_distance < 32768) ∧
    (decodeIntegralFrame prev1 bs).qual ≤ 255 ∧
    collectModeFull = false ∧ collectModeIntegral = true ∧
    collectModeFull ≠ collectModeIntegral :=
  ⟨rfl, leI16_range bs 0, leI16_range bs 2, leI16_range bs 4, leI16_range bs 6,
    leI16_range bs 8, leU32_lt bs 10, leI16_range bs 14, byteAt_le bs 16, rfl, rfl,
    by decide⟩

/-- C8: the identity rotation returns every 3-vector unchanged; every
rotation in the enumeration has an inverse in the enumeration that
reconstructs the original vector exactly; and every rotation preserves the
(squared) norm of the in-plane components. -/
theorem C8_rotation_identity_inverse_norm :
    (∀ v : Vec3, rotate_3f Rot.ROTATION_NONE v = v) ∧
    (∀ r : Rot, ∃ ri : Rot, ∀ v : Vec3, rotate_3f ri (rotate_3f r v) = v) ∧
    (∀ r : Rot, ∀ v : Vec3,
      (rotate_3f r v).x ^ 2 + (rotate_3f r v).y ^ 2 = v.x ^ 2 + v.y ^ 2) := by
  refine ⟨fun v => rfl, fun r => ⟨rotInverse r, fun v => ?_⟩, fun r v => ?_⟩
  · cases r <;> simp [rotate_3f, rotInverse]
  · cases r <;> simp [rotate_3f] <;> ring

/-- C9: on the success path of a cycle (measure write and collect read both
succeed), the next cycle is scheduled after the fixed default interval of
100000 microseconds (100 ms), which lies within the configured valid range
of 10 ms to 1 s. -/
theorem C9_success_schedules_default_interval (st : PX4FLOWState) (bs : List Nat)
    (clock : Nat → Nat) (t0 : Nat) :
    (RunImpl st true (some bs) clock t0).sched =
      ScheduleAction.ScheduleDelayed PX4FLOW_CONVERSION_INTERVAL_DEFAULT ∧
    PX4FLOW_CONVERSION_INTERVAL_DEFAULT = 100000 ∧
    PX4FLOW_CONVERSION_INTERVAL_MIN ≤ PX4FLOW_CONVERSION_INTERVAL_DEFAULT ∧
    PX4FLOW_CONVERSION_INTERVAL_DEFAULT ≤ PX4FLOW_CONVERSION_INTERVAL_MAX := by
  refine ⟨?_, rfl, by decide, by decide⟩
  simp [RunImpl, measure, collect, start, OK, EIO_code]

/-- C10: in every published FlowSample the sample timestamp is at most the
publish timestamp: both are reads of the same monotonic clock and
`timestamp_sample` is captured first (first versus second clock read of
the collect call). -/
theorem C10_timestamp_sample_le_timestamp (st : PX4FLOWState) (bs : List Nat)
    (clock : Nat → Nat) (t0 : Nat)
    (hclk : ∀ i j : Nat, i ≤ j → clock i ≤ clock j) :
    (collect st (some bs) clock t0).flow_pubs.length = 1 ∧
    ((collect st (some bs) clock t0).flow_pubs.headD default).timestamp_sample ≤
      ((collect st (some bs) clock t0).flow_pubs.headD default).timestamp := by
  refine ⟨by simp [collect], ?_⟩
  simp only [collect, List.headD]
  exact hclk t0 (t0 + 1) (Nat.le_succ t0)

/-- C10 witness: instantiated at the identity clock (which is monotone) and
the concrete primary instance and frame bytes. -/
theorem C10_timestamp_sample_le_timestamp_witness :
    (collect st0 (some sampleBytes) idClock 0).flow_pubs.length = 1 ∧
    ((collect st0 (some sampleBytes) idClock 0).flow_pubs.headD default).timestamp_sample ≤
      ((collect st0 (some sampleBytes) idClock 0).flow_pubs.headD default).timestamp :=
  C10_timestamp_sample_le_timestamp st0 sampleBytes idClock 0 (fun i j h => h)

end PX4Flow
